import Mathlib

/-!
Verification of the Cavern-PVP runner simulation, trap handling, transport
send guard and level-generation fallback.

The definitions below are a shallow embedding of the TypeScript sources:
* `movedPlayer`, `collideV`, `findLanding`, `respawnTarget`, `updatePhysics`
  embed `updatePhysics` from `src/App.tsx` (numbers as exact rationals,
  keyboard state as an explicit `InputState`).  A JavaScript `TypeError`
  (dereferencing `undefined`) is represented by an `Option` result: `none`
  means the tick faults.
* `handleTrapTrigger` embeds `handleTrapTrigger` from `src/App.tsx`
  (the `Math.random() > 0.5` draw of the bomb is an explicit `Bool`).
* `UDPNetwork.send` embeds `UDPNetwork.send` from `src/services/p2p.ts`,
  with the data channel made explicit as a record of ready state and the
  list of messages actually handed to the channel.
* `generateLevel` embeds `generateLevel` from the Gemini service file,
  with the outcome of the remote call made explicit as `GeminiOutcome`.
-/

/-- `Platform` from `src/types.ts`. -/
structure Platform where
  id : String
  x : ℚ
  y : ℚ
  width : ℚ
  height : ℚ

/-- `gameStatus` values from `src/types.ts`. -/
inductive GameStatus where
  | IDLE
  | PLAYING
  | WON
  | LOST
deriving DecidableEq

/-- `PlayerState` from `src/types.ts`. -/
structure PlayerState where
  x : ℚ
  y : ℚ
  vx : ℚ
  vy : ℚ
  isGrounded : Bool
  isDead : Bool
  controlsReversed : Bool
  reverseTimer : ℚ

/-- `GameState` from `src/types.ts`. -/
structure GameState where
  isPlaying : Bool
  gameStatus : GameStatus
  level : List Platform
  player : PlayerState
  revives : ℤ
  timeElapsed : ℚ
  levelLength : ℚ

/-- `TrapType` from `src/types.ts`. -/
inductive TrapType where
  | BOMB
  | CRACK
  | REVERSE

/-- The keyboard state sampled by `updatePhysics` (`ArrowLeft`, `ArrowRight`,
`Space` membership in `keysPressed`). -/
structure InputState where
  left : Bool
  right : Bool
  jump : Bool

def GRAVITY : ℚ := 0.6

def JUMP_FORCE : ℚ := -12

def MOVE_SPEED : ℚ := 5

def MAX_FALL_SPEED : ℚ := 15

def LEVEL_LENGTH : ℚ := 4000

/-- The platform-scan of the collision loop in `updatePhysics`
(`src/App.tsx` lines 296-308): the first platform of the level list whose
horizontal span overlaps the tentative position and whose top the feet
were above at tick start and would reach this tick. -/
def findLanding (nextX y nextY0 : ℚ) : List Platform → Option Platform
  | [] => none
  | plat :: rest =>
      if nextX + 30 > plat.x ∧ nextX < plat.x + plat.width ∧
         y + 48 ≤ plat.y ∧ nextY0 + 48 ≥ plat.y then
        some plat
      else
        findLanding nextX y nextY0 rest

/-- Vertical collision resolution of `updatePhysics` (`src/App.tsx` lines
293-309): only evaluated while descending; on the first match the vertical
position snaps to the platform top, vertical velocity zeroes and the actor
is grounded.  Returns `(nextY, vy, isGrounded)`. -/
def collideV (level : List Platform) (nextX y nextY0 vy : ℚ) : ℚ × ℚ × Bool :=
  if 0 ≤ vy then
    match findLanding nextX y nextY0 level with
    | some plat => (plat.y - 48, 0, true)
    | none => (nextY0, vy, false)
  else
    (nextY0, vy, false)

/-- Control resolution, integration and collision of `updatePhysics`
(`src/App.tsx` lines 266-315): the player record after the kinematic part
of the tick, before the win/death checks. -/
def movedPlayer (dt : ℚ) (input : InputState) (level : List Platform)
    (p : PlayerState) : PlayerState :=
  let moveDir0 : ℚ := (if input.left then -1 else 0) + (if input.right then 1 else 0)
  let moveDir : ℚ := if p.controlsReversed then -moveDir0 else moveDir0
  let rTimer : ℚ := if p.controlsReversed then p.reverseTimer - dt else p.reverseTimer
  let reversed : Bool :=
    if p.controlsReversed then (if 0 < rTimer then true else false) else p.controlsReversed
  let vx : ℚ := moveDir * MOVE_SPEED
  let vyJump : ℚ := if input.jump ∧ p.isGrounded then JUMP_FORCE else p.vy
  let vy : ℚ := min (vyJump + GRAVITY) MAX_FALL_SPEED
  let nextX : ℚ := p.x + vx
  let nextY0 : ℚ := p.y + vy
  let c := collideV level nextX p.y nextY0 vy
  { x := nextX, y := c.1, vx := vx, vy := c.2.1, isGrounded := c.2.2,
    isDead := p.isDead, controlsReversed := reversed, reverseTimer := rTimer }

/-- The respawn-candidate filter of the death branch (`src/App.tsx` line
326): platforms strictly left of the player AND with strictly positive x. -/
def precedingPlats (px : ℚ) : List Platform → List Platform
  | [] => []
  | p :: rest =>
      if p.x < px ∧ p.x > 0 then p :: precedingPlats px rest
      else precedingPlats px rest

/-- One step of the stable insertion sort realising the JavaScript
`sort((a, b) => b.x - a.x)` (descending by `x`, original order kept among
equal keys). -/
def insertDescX (p : Platform) : List Platform → List Platform
  | [] => [p]
  | q :: rest => if q.x ≤ p.x then p :: q :: rest else q :: insertDescX p rest

/-- Stable descending-by-`x` sort, embedding `sort((a, b) => b.x - a.x)`
from `src/App.tsx` line 327. -/
def sortDescX : List Platform → List Platform
  | [] => []
  | p :: rest => insertDescX p (sortDescX rest)

/-- The respawn-platform selection of the death branch (`src/App.tsx`
lines 325-327): `filter(...).sort((a,b) => b.x - a.x)[0] || state.level[0]`.
`none` is JavaScript `undefined` (both lookups empty). -/
def respawnTarget (level : List Platform) (px : ℚ) : Option Platform :=
  match sortDescX (precedingPlats px level) with
  | best :: _ => some best
  | [] => level.head?

/-- `updatePhysics` from `src/App.tsx` (lines 263-349).  `none` models the
JavaScript `TypeError` thrown when the death branch dereferences
`undefined` (`safePlat.x` with no respawn candidate and an empty level). -/
def updatePhysics (dt : ℚ) (input : InputState) (s : GameState) : Option GameState :=
  if (movedPlayer dt input s.level s.player).x ≥ s.levelLength then
    some { s with player := movedPlayer dt input s.level s.player,
                  gameStatus := GameStatus.WON, isPlaying := false }
  else if (movedPlayer dt input s.level s.player).y > 800 then
    if s.revives > 0 then
      match respawnTarget s.level (movedPlayer dt input s.level s.player).x with
      | some safePlat =>
          some { s with
                 player := { movedPlayer dt input s.level s.player with
                             x := safePlat.x, y := safePlat.y - 60, vx := 0, vy := 0 },
                 revives := s.revives - 1 }
      | none => none
    else
      some { s with player := movedPlayer dt input s.level s.player,
                    gameStatus := GameStatus.LOST, isPlaying := false }
  else
    some { s with player := movedPlayer dt input s.level s.player,
                  timeElapsed := s.timeElapsed + dt / 1000 }

/-- One iteration of `gameLoop` (`src/App.tsx` lines 244-249): the raw
frame delta is clamped to at most 50 before the physics step. -/
def gameLoopTick (raw : ℚ) (input : InputState) (s : GameState) : Option GameState :=
  updatePhysics (min raw 50) input s

/-- The platform-under-player test of the `CRACK` trap
(`src/App.tsx` lines 225-229), first match in level order. -/
def platformUnder (p : PlayerState) : List Platform → Option Platform
  | [] => none
  | plat :: rest =>
      if p.x + 20 > plat.x ∧ p.x + 10 < plat.x + plat.width ∧
         p.y + 50 ≥ plat.y ∧ p.y + 50 ≤ plat.y + 10 then
        some plat
      else
        platformUnder p rest

/-- `level.filter(pl => pl.id !== platformUnder.id)` from `src/App.tsx`
line 231. -/
def removePlat (pid : String) : List Platform → List Platform
  | [] => []
  | pl :: rest =>
      if pl.id ≠ pid then pl :: removePlat pid rest else removePlat pid rest

/-- `handleTrapTrigger` from `src/App.tsx` (lines 211-242).  `rand` is the
`Math.random() > 0.5` draw used by the bomb. -/
def handleTrapTrigger (rand : Bool) (t : TrapType) (s : GameState) : GameState :=
  if s.gameStatus ≠ GameStatus.PLAYING then s
  else
    match t with
    | TrapType.BOMB =>
        { s with player := { s.player with
            vx := if rand then 12 else -12, vy := -12, isGrounded := false } }
    | TrapType.CRACK =>
        match platformUnder s.player s.level with
        | some plat => { s with level := removePlat plat.id s.level }
        | none => s
    | TrapType.REVERSE =>
        { s with player := { s.player with controlsReversed := true, reverseTimer := 3000 } }

/-- The observable side of an `RTCDataChannel`: its `readyState` string and
the messages actually handed to `channel.send`. -/
structure RTCDataChannel where
  readyState : String
  sentMessages : List String

/-- The `dataChannel` field of `UDPNetwork` (`src/services/p2p.ts`),
`none` while no channel object exists. -/
structure UDPNetworkState where
  dataChannel : Option RTCDataChannel

/-- Outcome of one `UDPNetwork.send` call: the network afterwards, whether
the `console.warn` diagnostic fired, and the exception propagated to the
caller (`none` = no exception). -/
structure SendEffect where
  network : UDPNetworkState
  warned : Bool
  threw : Option String

/-- The raw `RTCDataChannel.send`: succeeds only on an open channel,
otherwise throws `InvalidStateError`. -/
def RTCDataChannel.rawSend (ch : RTCDataChannel) (m : String) :
    Except String RTCDataChannel :=
  if ch.readyState = "open" then
    Except.ok { ch with sentMessages := ch.sentMessages ++ [m] }
  else
    Except.error "InvalidStateError"

/-- `UDPNetwork.send` from `src/services/p2p.ts` (lines 174-182): guard on
`dataChannel?.readyState === 'open'`, else only `console.warn`. -/
def UDPNetwork.send (net : UDPNetworkState) (m : String) : SendEffect :=
  match net.dataChannel with
  | some ch =>
      if ch.readyState = "open" then
        match ch.rawSend m with
        | Except.ok ch2 => { network := ⟨some ch2⟩, warned := false, threw := none }
        | Except.error e => { network := net, warned := false, threw := some e }
      else
        { network := net, warned := true, threw := none }
  | none => { network := net, warned := true, threw := none }

/-- A platform record as parsed from the generation response, before ids
are attached. -/
structure RawPlatform where
  x : ℚ
  y : ℚ
  width : ℚ
  height : ℚ

/-- Outcome of the Gemini call inside `generateLevel`: the request may
throw, the response text may be empty, `JSON.parse` may throw, the parsed
value may not be an array, or a platform array is obtained. -/
inductive GeminiOutcome where
  | requestFailed
  | emptyText
  | parseError
  | parsedNonArray
  | parsedArray (ps : List RawPlatform)

/-- `data.map((p, index) => ({ ...p, id: "plat-" + index }))` from the
generation service, index threaded explicitly. -/
def addIdsFrom (i : Nat) : List RawPlatform → List Platform
  | [] => []
  | p :: rest =>
      { id := "plat-" ++ toString i, x := p.x, y := p.y,
        width := p.width, height := p.height } :: addIdsFrom (i + 1) rest

/-- Id attachment of the success path of `generateLevel`. -/
def addIds (ps : List RawPlatform) : List Platform := addIdsFrom 0 ps

/-- The hardcoded fallback level of `generateLevel` (catch branch). -/
def fallbackLevel : List Platform :=
  [ { id := "start", x := 50, y := 400, width := 400, height := 40 },
    { id := "1", x := 500, y := 350, width := 150, height := 30 },
    { id := "2", x := 700, y := 450, width := 150, height := 30 },
    { id := "3", x := 900, y := 300, width := 100, height := 30 },
    { id := "4", x := 1100, y := 400, width := 200, height := 30 },
    { id := "5", x := 1400, y := 350, width := 100, height := 30 },
    { id := "6", x := 1600, y := 250, width := 150, height := 30 },
    { id := "7", x := 1900, y := 400, width := 300, height := 30 },
    { id := "8", x := 2300, y := 350, width := 100, height := 30 },
    { id := "9", x := 2500, y := 250, width := 100, height := 30 },
    { id := "10", x := 2700, y := 350, width := 150, height := 30 },
    { id := "11", x := 3000, y := 400, width := 200, height := 30 },
    { id := "12", x := 3300, y := 300, width := 150, height := 30 },
    { id := "13", x := 3600, y := 400, width := 400, height := 30 } ]

/-- The `try` body of `generateLevel`: every non-success outcome is a
thrown error. -/
def tryGenerate (o : GeminiOutcome) : Except String (List Platform) :=
  match o with
  | GeminiOutcome.parsedArray ps => Except.ok (addIds ps)
  | GeminiOutcome.requestFailed => Except.error "request failed"
  | GeminiOutcome.emptyText => Except.error "No data returned"
  | GeminiOutcome.parseError => Except.error "JSON parse error"
  | GeminiOutcome.parsedNonArray => Except.error "data.map is not a function"

/-- `generateLevel` from the Gemini service file: the whole body is wrapped
in `try/catch` and the catch substitutes the fallback level. -/
def generateLevel (o : GeminiOutcome) : List Platform :=
  match tryGenerate o with
  | Except.ok ps => ps
  | Except.error _ => fallbackLevel

/-- No key pressed. -/
def noInput : InputState := ⟨false, false, false⟩

/-- Only `ArrowRight` pressed. -/
def rightInput : InputState := ⟨false, true, false⟩

/-- Level with a platform right of the player and a platform at `x = 0`
left of the player. -/
def c1Level : List Platform :=
  [ ⟨"far", 500, 300, 100, 30⟩, ⟨"origin", 0, 500, 200, 30⟩ ]

/-- A player at `x = 100` about to cross `y = 800` falling at clamp speed. -/
def c1Player : PlayerState := ⟨100, 790, 0, 72/5, false, false, false, 0⟩

/-- Playing state for the C1 counterexample. -/
def c1State : GameState := ⟨true, GameStatus.PLAYING, c1Level, c1Player, 3, 0, 4000⟩

/-- Single-platform level with the platform at `x = 50`. -/
def c1wLevel : List Platform := [ ⟨"start", 50, 400, 400, 40⟩ ]

/-- Falling player left of no platform, right of the `x = 50` platform. -/
def c1wPlayer : PlayerState := ⟨100, 790, 0, 72/5, false, false, false, 0⟩

/-- Playing state for the C1 witness. -/
def c1wState : GameState := ⟨true, GameStatus.PLAYING, c1wLevel, c1wPlayer, 3, 0, 4000⟩

/-- The state the C1 witness tick produces: respawned on the platform. -/
def c1wResult : GameState :=
  ⟨true, GameStatus.PLAYING, c1wLevel, ⟨50, 340, 0, 0, false, false, false, 0⟩, 2, 0, 4000⟩

/-- Playing state whose next tick is a reviving fall (for C2). -/
def c2State : GameState :=
  ⟨true, GameStatus.PLAYING, [⟨"start", 50, 400, 400, 40⟩],
   ⟨100, 790, 0, 72/5, false, false, false, 0⟩, 3, 7, 4000⟩

/-- Playing state whose next tick is an ordinary mid-air step (for C2). -/
def c2wState : GameState :=
  ⟨true, GameStatus.PLAYING, [], ⟨100, 300, 0, 0, false, false, false, 0⟩, 3, 0, 4000⟩

/-- First-listed platform, top at `y = 400` (C3). -/
def platA : Platform := ⟨"A", 0, 400, 100, 30⟩

/-- Second-listed platform, higher top at `y = 390`, overlapping `platA` (C3). -/
def platB : Platform := ⟨"B", 0, 390, 100, 30⟩

/-- Lone platform for the C3 witness. -/
def platW : Platform := ⟨"W", 0, 400, 100, 30⟩

/-- The platform the C4 crack removes. -/
def c4Plat : Platform := ⟨"start", 50, 400, 400, 40⟩

/-- Playing state with the player standing on the only platform (C4). -/
def c4Standing : GameState :=
  ⟨true, GameStatus.PLAYING, [c4Plat], ⟨100, 352, 0, 0, true, false, false, 0⟩, 3, 0, 4000⟩

/-- Playing state with an empty level and the player about to cross
`y = 800` with revives left (C4). -/
def c4Fallen : GameState :=
  ⟨true, GameStatus.PLAYING, [], ⟨100, 790, 0, 72/5, false, false, false, 0⟩, 3, 0, 4000⟩

/-- Playing state with 3 revives whose next tick is a reviving fall (C5). -/
def c5State : GameState :=
  ⟨true, GameStatus.PLAYING, [⟨"start", 50, 400, 400, 40⟩],
   ⟨100, 790, 0, 72/5, false, false, false, 0⟩, 3, 0, 4000⟩

/-- The state the C5 witness tick produces. -/
def c5Result : GameState :=
  ⟨true, GameStatus.PLAYING, [⟨"start", 50, 400, 400, 40⟩],
   ⟨50, 340, 0, 0, false, false, false, 0⟩, 2, 0, 4000⟩

/-- Playing state at `x = 3999` which is also falling past `y = 800`,
one move-speed step away from level length 4000 (C6). -/
def c6State : GameState :=
  ⟨true, GameStatus.PLAYING, [], ⟨3999, 790, 0, 72/5, false, false, false, 0⟩, 3, 0, 4000⟩

/-- Playing state with the reversed-controls flag already set and a
partially burnt countdown (C7). -/
def c7State : GameState :=
  ⟨true, GameStatus.PLAYING, [], ⟨0, 0, 0, 0, false, false, true, 1234⟩, 3, 0, 4000⟩

/-- A terminal (Won) state (C8). -/
def c8State : GameState :=
  ⟨false, GameStatus.WON, [⟨"start", 50, 400, 400, 40⟩],
   ⟨0, 0, 1, 2, false, false, false, 0⟩, 3, 9, 4000⟩

/-- A negotiated transport whose data channel exists but is not open (C9). -/
def c9Net : UDPNetworkState := ⟨some ⟨"connecting", []⟩⟩

theorem findLanding_eq_none_iff (nextX y nextY0 : ℚ) (l : List Platform) :
    findLanding nextX y nextY0 l = none ↔
      ∀ plat ∈ l, ¬(nextX + 30 > plat.x ∧ nextX < plat.x + plat.width ∧
        y + 48 ≤ plat.y ∧ nextY0 + 48 ≥ plat.y) := by
  induction l with
  | nil => simp [findLanding]
  | cons plat rest ih =>
      by_cases h : nextX + 30 > plat.x ∧ nextX < plat.x + plat.width ∧
          y + 48 ≤ plat.y ∧ nextY0 + 48 ≥ plat.y
      · rw [findLanding, if_pos h]
        simp only [List.mem_cons]
        constructor
        · intro hcontra; exact absurd hcontra (by simp)
        · intro hall; exact absurd h (hall plat (Or.inl rfl))
      · rw [findLanding, if_neg h, ih]
        constructor
        · rintro hall q hq
          rcases List.mem_cons.mp hq with rfl | hq'
          · exact h
          · exact hall q hq'
        · intro hall q hq; exact hall q (List.mem_cons.mpr (Or.inr hq))

theorem insertDescX_ne_nil (p : Platform) (l : List Platform) :
    insertDescX p l ≠ [] := by
  cases l with
  | nil => simp [insertDescX]
  | cons q rest =>
      by_cases h : q.x ≤ p.x <;> simp [insertDescX, h]

theorem sortDescX_eq_nil (l : List Platform) (h : sortDescX l = []) : l = [] := by
  cases l with
  | nil => rfl
  | cons p rest =>
      exact absurd h (insertDescX_ne_nil p (sortDescX rest))

theorem sortDescX_head_spec (l : List Platform) (h : Platform) (t : List Platform)
    (hs : sortDescX l = h :: t) : h ∈ l ∧ ∀ q ∈ l, q.x ≤ h.x := by
  induction l generalizing h t with
  | nil => simp [sortDescX] at hs
  | cons p rest ih =>
      rw [sortDescX] at hs
      rcases hrest : sortDescX rest with _ | ⟨hh, tt⟩
      · have hrnil : rest = [] := sortDescX_eq_nil rest hrest
        rw [hrest, insertDescX] at hs
        obtain ⟨rfl, rfl⟩ : p = h ∧ ([] : List Platform) = t := by
          constructor <;> [exact (List.cons.injEq .. ▸ hs).1; exact (List.cons.injEq .. ▸ hs).2]
        subst hrnil
        refine ⟨List.mem_singleton_self p, ?_⟩
        intro q hq
        rw [List.mem_singleton.mp hq]
      · rw [hrest] at hs
        obtain ⟨hmem, hmax⟩ := ih hh tt hrest
        by_cases hc : hh.x ≤ p.x
        · rw [insertDescX, if_pos hc] at hs
          obtain rfl : p = h := (List.cons.injEq .. ▸ hs).1
          refine ⟨List.mem_cons_self p rest, ?_⟩
          intro q hq
          rcases List.mem_cons.mp hq with rfl | hq'
          · exact le_refl _
          · exact (hmax q hq').trans hc
        · rw [insertDescX, if_neg hc] at hs
          obtain rfl : hh = h := (List.cons.injEq .. ▸ hs).1
          refine ⟨List.mem_cons.mpr (Or.inr hmem), ?_⟩
          intro q hq
          rcases List.mem_cons.mp hq with rfl | hq'
          · exact le_of_lt (not_le.mp hc)
          · exact hmax q hq'

theorem mem_precedingPlats (px : ℚ) (l : List Platform) (q : Platform) :
    q ∈ precedingPlats px l ↔ q ∈ l ∧ q.x < px ∧ q.x > 0 := by
  induction l with
  | nil => simp [precedingPlats]
  | cons p rest ih =>
      by_cases h : p.x < px ∧ p.x > 0
      · rw [precedingPlats, if_pos h]
        simp only [List.mem_cons, ih]
        constructor
        · rintro (rfl | ⟨hq, hc⟩)
          · exact ⟨Or.inl rfl, h⟩
          · exact ⟨Or.inr hq, hc⟩
        · rintro ⟨rfl | hq, hc⟩
          · exact Or.inl rfl
          · exact Or.inr ⟨hq, hc⟩
      · rw [precedingPlats, if_neg h, ih]
        simp only [List.mem_cons]
        constructor
        · rintro ⟨hq, hc⟩; exact ⟨Or.inr hq, hc⟩
        · rintro ⟨rfl | hq, hc⟩
          · exact absurd hc h
          · exact ⟨hq, hc⟩

theorem precedingPlats_eq_nil_iff (px : ℚ) (l : List Platform) :
    precedingPlats px l = [] ↔ ∀ q ∈ l, ¬(q.x < px ∧ q.x > 0) := by
  rw [List.eq_nil_iff_forall_not_mem]
  constructor
  · intro hno q hq hc
    exact hno q ((mem_precedingPlats px l q).mpr ⟨hq, hc⟩)
  · intro hall q hq
    obtain ⟨hmem, hc⟩ := (mem_precedingPlats px l q).mp hq
    exact hall q hmem hc

theorem respawnTarget_spec (level : List Platform) (px : ℚ) (c : Platform)
    (h : respawnTarget level px = some c) :
    c ∈ level ∧
      ((c.x < px ∧ c.x > 0 ∧ ∀ q ∈ level, q.x < px → q.x > 0 → q.x ≤ c.x) ∨
       ((∀ q ∈ level, ¬(q.x < px ∧ q.x > 0)) ∧ level.head? = some c)) := by
  rw [respawnTarget] at h
  rcases hs : sortDescX (precedingPlats px level) with _ | ⟨best, t⟩
  · rw [hs] at h
    have hnil : precedingPlats px level = [] := sortDescX_eq_nil _ hs
    have hall := (precedingPlats_eq_nil_iff px level).mp hnil
    have hcmem : c ∈ level := by
      cases level with
      | nil => simp at h
      | cons a as =>
          simp only [List.head?] at h
          obtain rfl : a = c := Option.some.injEq .. ▸ h
          exact List.mem_cons_self a as
    exact ⟨hcmem, Or.inr ⟨hall, h⟩⟩
  · rw [hs] at h
    obtain rfl : best = c := Option.some.injEq .. ▸ h
    obtain ⟨hmem, hmax⟩ := sortDescX_head_spec _ best t hs
    obtain ⟨hlev, hlt, hpos⟩ := (mem_precedingPlats px level best).mp hmem
    refine ⟨hlev, Or.inl ⟨hlt, hpos, ?_⟩⟩
    intro q hq hq1 hq2
    exact hmax q ((mem_precedingPlats px level q).mpr ⟨hq, hq1, hq2⟩)

/-- C8: a trap intent of any kind applied while the status is not Playing
leaves the whole game state unchanged. -/
theorem c8_trap_ignored_outside_playing (r : Bool) (t : TrapType) (s : GameState)
    (h : s.gameStatus ≠ GameStatus.PLAYING) : handleTrapTrigger r t s = s := by
  rw [handleTrapTrigger.eq_def, if_pos h]

/-- Witness for C8 at a Won state with a bomb intent. -/
theorem c8_trap_ignored_outside_playing_witness :
    c8State.gameStatus ≠ GameStatus.PLAYING ∧
    handleTrapTrigger true TrapType.BOMB c8State = c8State :=
  ⟨by decide, c8_trap_ignored_outside_playing true TrapType.BOMB c8State (by decide)⟩

/-- C7: on any Playing state a Reverse trap sets the reversed-controls flag
and sets the countdown to exactly 3000; a second Reverse on the resulting
state leaves the countdown at exactly 3000 again (reset, not extended). -/
theorem c7_reverse_resets (r r2 : Bool) (s : GameState)
    (h : s.gameStatus = GameStatus.PLAYING) :
    (handleTrapTrigger r TrapType.REVERSE s).player.controlsReversed = true ∧
    (handleTrapTrigger r TrapType.REVERSE s).player.reverseTimer = 3000 ∧
    (handleTrapTrigger r2 TrapType.REVERSE
        (handleTrapTrigger r TrapType.REVERSE s)).player.reverseTimer = 3000 := by
  have h1 : handleTrapTrigger r TrapType.REVERSE s =
      { s with player := { s.player with controlsReversed := true, reverseTimer := 3000 } } := by
    rw [handleTrapTrigger.eq_def, if_neg (by simp [h])]
  have h2 : handleTrapTrigger r2 TrapType.REVERSE
      { s with player := { s.player with controlsReversed := true, reverseTimer := 3000 } } =
      { s with player := { s.player with controlsReversed := true, reverseTimer := 3000 } } := by
    rw [handleTrapTrigger.eq_def, if_neg (by simp [h])]
  rw [h1, h2]
  exact ⟨rfl, rfl, rfl⟩

/-- Witness for C7 on a Playing state whose reversal is already active. -/
theorem c7_reverse_resets_witness :
    c7State.gameStatus = GameStatus.PLAYING ∧
    (handleTrapTrigger true TrapType.REVERSE c7State).player.controlsReversed = true ∧
    (handleTrapTrigger true TrapType.REVERSE c7State).player.reverseTimer = 3000 ∧
    (handleTrapTrigger false TrapType.REVERSE
        (handleTrapTrigger true TrapType.REVERSE c7State)).player.reverseTimer = 3000 :=
  ⟨rfl, c7_reverse_resets true false c7State rfl⟩

/-- C9: sending on the negotiated transport while the data channel is
absent or not open leaves the channel untouched (the message is never
handed to it), emits only the diagnostic, and throws nothing. -/
theorem c9_send_drops_when_not_open (net : UDPNetworkState) (m : String)
    (h : ∀ ch, net.dataChannel = some ch → ch.readyState ≠ "open") :
    (UDPNetwork.send net m).network = net ∧
    (UDPNetwork.send net m).warned = true ∧
    (UDPNetwork.send net m).threw = none := by
  rcases hnet : net.dataChannel with _ | ch
  · simp [UDPNetwork.send, hnet]
  · have hop : ch.readyState ≠ "open" := h ch hnet
    simp [UDPNetwork.send, hnet, hop]

/-- Witness for C9 on a connecting (not yet open) data channel. -/
theorem c9_send_drops_when_not_open_witness :
    (∀ ch, c9Net.dataChannel = some ch → ch.readyState ≠ "open") ∧
    (UDPNetwork.send c9Net "ping").network = c9Net ∧
    (UDPNetwork.send c9Net "ping").warned = true ∧
    (UDPNetwork.send c9Net "ping").threw = none :=
  ⟨by intro ch hch; injection hch with he; rw [← he]; decide,
   c9_send_drops_when_not_open c9Net "ping"
     (by intro ch hch; injection hch with he; rw [← he]; decide)⟩

/-- C10: whenever the body of the level-generation call throws (request
failure, empty text, parse failure, non-array payload), the caller gets
the one hardcoded fallback list, which spans the level length; no error is
propagated (the result type is a plain platform list). -/
theorem c10_generation_fallback :
    (∀ o : GeminiOutcome, (∃ e, tryGenerate o = Except.error e) →
       generateLevel o = fallbackLevel) ∧
    (∃ p ∈ fallbackLevel, p.x + p.width = LEVEL_LENGTH) := by
  constructor
  · rintro o ⟨e, he⟩
    rw [generateLevel, he]
  · refine ⟨⟨"13", 3600, 400, 400, 30⟩, by simp [fallbackLevel], by norm_num [LEVEL_LENGTH]⟩

/-- Witness for C10 at a failed generation request. -/
theorem c10_generation_fallback_witness :
    generateLevel GeminiOutcome.requestFailed = fallbackLevel :=
  c10_generation_fallback.1 GeminiOutcome.requestFailed ⟨"request failed", rfl⟩

/-- C4 (refuted by the code): a crack on the lone supporting platform
empties the level, and the next fatal fall with revives left makes the
tick fault (`none` = the JavaScript TypeError from `state.level[0].x`),
so the tick function is not total on reachable states. -/
theorem c4_empty_level_tick_faults :
    (handleTrapTrigger true TrapType.CRACK c4Standing).level = [] ∧
    c4Fallen.level = [] ∧
    c4Fallen.gameStatus = GameStatus.PLAYING ∧
    c4Fallen.revives > 0 ∧
    (movedPlayer 16 noInput c4Fallen.level c4Fallen.player).y > 800 ∧
    updatePhysics 16 noInput c4Fallen = none := by
  refine ⟨?_, rfl, rfl, by norm_num [c4Fallen], ?_, ?_⟩
  · norm_num [handleTrapTrigger, platformUnder, removePlat, c4Standing, c4Plat]
  · norm_num [movedPlayer, collideV, findLanding, c4Fallen, noInput,
      GRAVITY, MAX_FALL_SPEED, min_def]
  · norm_num [updatePhysics, movedPlayer, collideV, findLanding, respawnTarget,
      precedingPlats, sortDescX, insertDescX, c4Fallen, noInput,
      GRAVITY, MAX_FALL_SPEED, min_def]

/-- C6: whenever the integrated horizontal position reaches the level
length, the tick ends Won with everything else (revives, elapsed time)
untouched — the death check is never reached; in particular the concrete
scenario x = 3999 plus one move-speed step (while simultaneously falling
past y = 800 over an empty level) ends Won with revives intact. -/
theorem c6_win_check_first :
    (∀ (dt : ℚ) (input : InputState) (s : GameState),
       s.gameStatus = GameStatus.PLAYING →
       (movedPlayer dt input s.level s.player).x ≥ s.levelLength →
       updatePhysics dt input s =
         some { s with player := movedPlayer dt input s.level s.player,
                       gameStatus := GameStatus.WON, isPlaying := false }) ∧
    c6State.levelLength = 4000 ∧ c6State.player.x = 3999 ∧ MOVE_SPEED = 5 ∧
    (movedPlayer 16 rightInput c6State.level c6State.player).y > 800 ∧
    (updatePhysics 16 rightInput c6State).map GameState.gameStatus = some GameStatus.WON ∧
    (updatePhysics 16 rightInput c6State).map GameState.revives = some c6State.revives := by
  refine ⟨?_, rfl, rfl, rfl, ?_, ?_, ?_⟩
  · intro dt input s _ hwin
    rw [updatePhysics, if_pos hwin]
  · norm_num [movedPlayer, collideV, findLanding, c6State, rightInput,
      GRAVITY, MOVE_SPEED, MAX_FALL_SPEED, min_def]
  · norm_num [updatePhysics, movedPlayer, collideV, findLanding, c6State, rightInput,
      GRAVITY, MOVE_SPEED, MAX_FALL_SPEED, min_def]
  · norm_num [updatePhysics, movedPlayer, collideV, findLanding, c6State, rightInput,
      GRAVITY, MOVE_SPEED, MAX_FALL_SPEED, min_def]

/-- Witness for C6 instantiating the universal part at the scenario state. -/
theorem c6_win_check_first_witness :
    c6State.gameStatus = GameStatus.PLAYING ∧
    (movedPlayer 16 rightInput c6State.level c6State.player).x ≥ c6State.levelLength ∧
    updatePhysics 16 rightInput c6State =
      some { c6State with player := movedPlayer 16 rightInput c6State.level c6State.player,
                          gameStatus := GameStatus.WON, isPlaying := false } :=
  ⟨rfl,
   by norm_num [movedPlayer, collideV, findLanding, c6State, rightInput,
     GRAVITY, MOVE_SPEED, MAX_FALL_SPEED, min_def],
   c6_win_check_first.1 16 rightInput c6State rfl
     (by norm_num [movedPlayer, collideV, findLanding, c6State, rightInput,
       GRAVITY, MOVE_SPEED, MAX_FALL_SPEED, min_def])⟩

/-- C1 (counterexample to the claim as stated): the platform at `x = 0`
is the closest-preceding platform of the player at `x = 100`, but the
reviving tick teleports the player to `x = 500` (the code's filter also
demands `p.x > 0`, so it falls back to the first platform of the list). -/
theorem c1_claim_counterexample :
    (movedPlayer 16 noInput c1Level c1Player).x = 100 ∧
    (∃ q ∈ c1Level, q.x < 100) ∧
    (∀ q ∈ c1Level, q.x < 100 → q.x ≤ 0) ∧
    (updatePhysics 16 noInput c1State).map (fun st => st.player.x) = some 500 ∧
    (500 : ℚ) ≠ 0 := by
  refine ⟨?_, ⟨⟨"origin", 0, 500, 200, 30⟩, by simp [c1Level], by norm_num⟩, ?_, ?_, by norm_num⟩
  · norm_num [movedPlayer, collideV, findLanding, c1Level, c1Player, noInput,
      GRAVITY, MAX_FALL_SPEED, min_def]
  · intro q hq
    simp only [c1Level, List.mem_cons, List.not_mem_nil, or_false] at hq
    rcases hq with rfl | rfl <;> norm_num
  · norm_num [updatePhysics, movedPlayer, collideV, findLanding, respawnTarget,
      precedingPlats, sortDescX, insertDescX, c1State, c1Level, c1Player, noInput,
      GRAVITY, MAX_FALL_SPEED, min_def]

/-- C1 (amended): on a reviving fall the player's velocity is zeroed and
the player is teleported onto the platform with the greatest `x` that is
both strictly less than the player's position and strictly positive,
falling back to the first platform of the level list when no platform
satisfies both conditions. -/
theorem c1_respawn_teleport (dt : ℚ) (input : InputState) (s s1 : GameState)
    (h : updatePhysics dt input s = some s1)
    (_hstatus : s.gameStatus = GameStatus.PLAYING)
    (hrev : s.revives > 0)
    (hwin : (movedPlayer dt input s.level s.player).x < s.levelLength)
    (hdead : (movedPlayer dt input s.level s.player).y > 800) :
    s1.player.vx = 0 ∧ s1.player.vy = 0 ∧
    ∃ chosen, chosen ∈ s.level ∧
      s1.player.x = chosen.x ∧ s1.player.y = chosen.y - 60 ∧
      ((chosen.x < (movedPlayer dt input s.level s.player).x ∧ chosen.x > 0 ∧
        ∀ q ∈ s.level, q.x < (movedPlayer dt input s.level s.player).x →
          q.x > 0 → q.x ≤ chosen.x) ∨
       ((∀ q ∈ s.level, ¬(q.x < (movedPlayer dt input s.level s.player).x ∧ q.x > 0)) ∧
        s.level.head? = some chosen)) := by
  rw [updatePhysics, if_neg (not_le.mpr hwin), if_pos hdead, if_pos hrev] at h
  rcases hr : respawnTarget s.level (movedPlayer dt input s.level s.player).x with _ | sp
  · rw [hr] at h; exact absurd h (by simp)
  · rw [hr] at h
    injection h with h2
    subst h2
    obtain ⟨hmem, hcases⟩ := respawnTarget_spec s.level
      (movedPlayer dt input s.level s.player).x sp hr
    exact ⟨rfl, rfl, sp, hmem, rfl, rfl, hcases⟩

/-- Witness for C1 (amended) on a reviving fall above a single platform. -/
theorem c1_respawn_teleport_witness :
    updatePhysics 16 noInput c1wState = some c1wResult ∧
    c1wState.gameStatus = GameStatus.PLAYING ∧
    c1wState.revives > 0 ∧
    (movedPlayer 16 noInput c1wState.level c1wState.player).x < c1wState.levelLength ∧
    (movedPlayer 16 noInput c1wState.level c1wState.player).y > 800 ∧
    (c1wResult.player.vx = 0 ∧ c1wResult.player.vy = 0 ∧
     ∃ chosen, chosen ∈ c1wState.level ∧
       c1wResult.player.x = chosen.x ∧ c1wResult.player.y = chosen.y - 60 ∧
       ((chosen.x < (movedPlayer 16 noInput c1wState.level c1wState.player).x ∧ chosen.x > 0 ∧
         ∀ q ∈ c1wState.level,
           q.x < (movedPlayer 16 noInput c1wState.level c1wState.player).x →
             q.x > 0 → q.x ≤ chosen.x) ∨
        ((∀ q ∈ c1wState.level,
            ¬(q.x < (movedPlayer 16 noInput c1wState.level c1wState.player).x ∧ q.x > 0)) ∧
         c1wState.level.head? = some chosen))) :=
  ⟨by norm_num [updatePhysics, movedPlayer, collideV, findLanding, respawnTarget,
      precedingPlats, sortDescX, insertDescX, c1wState, c1wLevel, c1wPlayer, c1wResult,
      noInput, GRAVITY, MAX_FALL_SPEED, min_def],
   rfl, by norm_num [c1wState],
   by norm_num [movedPlayer, collideV, findLanding, c1wState, c1wLevel, c1wPlayer,
      noInput, GRAVITY, MAX_FALL_SPEED, min_def],
   by norm_num [movedPlayer, collideV, findLanding, c1wState, c1wLevel, c1wPlayer,
      noInput, GRAVITY, MAX_FALL_SPEED, min_def],
   c1_respawn_teleport 16 noInput c1wState c1wResult
     (by norm_num [updatePhysics, movedPlayer, collideV, findLanding, respawnTarget,
        precedingPlats, sortDescX, insertDescX, c1wState, c1wLevel, c1wPlayer, c1wResult,
        noInput, GRAVITY, MAX_FALL_SPEED, min_def])
     rfl (by norm_num [c1wState])
     (by norm_num [movedPlayer, collideV, findLanding, c1wState, c1wLevel, c1wPlayer,
        noInput, GRAVITY, MAX_FALL_SPEED, min_def])
     (by norm_num [movedPlayer, collideV, findLanding, c1wState, c1wLevel, c1wPlayer,
        noInput, GRAVITY, MAX_FALL_SPEED, min_def])⟩

/-- C5: a fall past the death threshold (with the win check not firing)
decrements revives by exactly one and stays Playing while revives remain,
turns the status Lost when revives are exhausted, and no tick or trap ever
increases the revives counter. -/
theorem c5_revive_accounting :
    (∀ (dt : ℚ) (input : InputState) (s s1 : GameState),
       updatePhysics dt input s = some s1 →
       s.gameStatus = GameStatus.PLAYING →
       (movedPlayer dt input s.level s.player).x < s.levelLength →
       (movedPlayer dt input s.level s.player).y > 800 →
       s.revives > 0 →
       s1.revives = s.revives - 1 ∧ s1.gameStatus = GameStatus.PLAYING) ∧
    (∀ (dt : ℚ) (input : InputState) (s : GameState),
       (movedPlayer dt input s.level s.player).x < s.levelLength →
       (movedPlayer dt input s.level s.player).y > 800 →
       s.revives = 0 →
       (updatePhysics dt input s).map GameState.gameStatus = some GameStatus.LOST) ∧
    (∀ (dt : ℚ) (input : InputState) (s s1 : GameState),
       updatePhysics dt input s = some s1 → s1.revives ≤ s.revives) ∧
    (∀ (r : Bool) (t : TrapType) (s : GameState),
       (handleTrapTrigger r t s).revives ≤ s.revives) := by
  refine ⟨?_, ?_, ?_, ?_⟩
  · intro dt input s s1 h hstatus hwin hdead hrev
    rw [updatePhysics, if_neg (not_le.mpr hwin), if_pos hdead, if_pos hrev] at h
    rcases hr : respawnTarget s.level (movedPlayer dt input s.level s.player).x with _ | sp
    · rw [hr] at h; exact absurd h (by simp)
    · rw [hr] at h
      injection h with h2
      subst h2
      exact ⟨rfl, hstatus⟩
  · intro dt input s hwin hdead hz
    rw [updatePhysics, if_neg (not_le.mpr hwin), if_pos hdead, if_neg (by simp [hz])]
    rfl
  · intro dt input s s1 h
    rw [updatePhysics] at h
    split at h
    · injection h with h2; subst h2; exact le_refl _
    · split at h
      · split at h
        · split at h
          · injection h with h2
            subst h2
            show s.revives - 1 ≤ s.revives
            omega
          · exact absurd h (by simp)
        · injection h with h2; subst h2; exact le_refl _
      · injection h with h2; subst h2; exact le_refl _
  · intro r t s
    rw [handleTrapTrigger.eq_def]
    split
    · exact le_refl _
    · split
      · exact le_refl _
      · split
        · exact le_refl _
        · exact le_refl _
      · exact le_refl _

/-- Witness for C5 on a reviving fall from 3 revives. -/
theorem c5_revive_accounting_witness :
    updatePhysics 16 noInput c5State = some c5Result ∧
    c5State.gameStatus = GameStatus.PLAYING ∧
    (movedPlayer 16 noInput c5State.level c5State.player).x < c5State.levelLength ∧
    (movedPlayer 16 noInput c5State.level c5State.player).y > 800 ∧
    c5State.revives > 0 ∧
    (c5Result.revives = c5State.revives - 1 ∧ c5Result.gameStatus = GameStatus.PLAYING) :=
  ⟨by norm_num [updatePhysics, movedPlayer, collideV, findLanding, respawnTarget,
      precedingPlats, sortDescX, insertDescX, c5State, c5Result, noInput,
      GRAVITY, MAX_FALL_SPEED, min_def],
   rfl,
   by norm_num [movedPlayer, collideV, findLanding, c5State, noInput,
      GRAVITY, MAX_FALL_SPEED, min_def],
   by norm_num [movedPlayer, collideV, findLanding, c5State, noInput,
      GRAVITY, MAX_FALL_SPEED, min_def],
   by norm_num [c5State],
   c5_revive_accounting.1 16 noInput c5State c5Result
     (by norm_num [updatePhysics, movedPlayer, collideV, findLanding, respawnTarget,
        precedingPlats, sortDescX, insertDescX, c5State, c5Result, noInput,
        GRAVITY, MAX_FALL_SPEED, min_def])
     rfl
     (by norm_num [movedPlayer, collideV, findLanding, c5State, noInput,
        GRAVITY, MAX_FALL_SPEED, min_def])
     (by norm_num [movedPlayer, collideV, findLanding, c5State, noInput,
        GRAVITY, MAX_FALL_SPEED, min_def])
     (by norm_num [c5State])⟩

/-- C2 (counterexample to the claim as stated): a reviving fall tick ends
with status still Playing yet leaves the elapsed-time accumulator exactly
where it was, instead of adding dt/1000. -/
theorem c2_claim_counterexample :
    (gameLoopTick 16 noInput c2State).map GameState.gameStatus = some GameStatus.PLAYING ∧
    (gameLoopTick 16 noInput c2State).map GameState.timeElapsed = some 7 ∧
    (7 : ℚ) ≠ 7 + (min (16:ℚ) 50) / 1000 := by
  refine ⟨?_, ?_, by norm_num [min_def]⟩ <;>
    norm_num [gameLoopTick, updatePhysics, movedPlayer, collideV, findLanding,
      respawnTarget, precedingPlats, sortDescX, insertDescX, c2State, noInput,
      GRAVITY, MAX_FALL_SPEED, min_def]

/-- C2 (amended): elapsed time is monotonically non-decreasing for
non-negative frame deltas; a tick that neither ends the game nor crosses
the death threshold adds exactly the clamped delta over 1000; a tick that
takes the death branch (respawn or loss) leaves the accumulator unchanged,
and so does a tick that leaves Playing status. -/
theorem c2_elapsed_time (raw : ℚ) (input : InputState) (s : GameState) :
    (∀ s1, 0 ≤ raw → gameLoopTick raw input s = some s1 →
       s.timeElapsed ≤ s1.timeElapsed) ∧
    ((movedPlayer (min raw 50) input s.level s.player).x < s.levelLength →
     ¬(movedPlayer (min raw 50) input s.level s.player).y > 800 →
     (gameLoopTick raw input s).map GameState.timeElapsed
       = some (s.timeElapsed + (min raw 50) / 1000)) ∧
    (∀ s1, gameLoopTick raw input s = some s1 →
       (movedPlayer (min raw 50) input s.level s.player).x < s.levelLength →
       (movedPlayer (min raw 50) input s.level s.player).y > 800 →
       s1.timeElapsed = s.timeElapsed) ∧
    (∀ s1, gameLoopTick raw input s = some s1 →
       s.gameStatus = GameStatus.PLAYING → s1.gameStatus ≠ GameStatus.PLAYING →
       s1.timeElapsed = s.timeElapsed) := by
  refine ⟨?_, ?_, ?_, ?_⟩
  · intro s1 hraw h
    have hdt : (0:ℚ) ≤ min raw 50 := le_min hraw (by norm_num)
    rw [gameLoopTick, updatePhysics] at h
    split at h
    · injection h with h2; subst h2; exact le_refl _
    · split at h
      · split at h
        · split at h
          · injection h with h2; subst h2; exact le_refl _
          · exact absurd h (by simp)
        · injection h with h2; subst h2; exact le_refl _
      · injection h with h2; subst h2
        show s.timeElapsed ≤ s.timeElapsed + min raw 50 / 1000
        have hq : (0:ℚ) ≤ min raw 50 / 1000 := div_nonneg hdt (by norm_num)
        linarith
  · intro hwin hnd
    rw [gameLoopTick, updatePhysics, if_neg (not_le.mpr hwin), if_neg hnd]
    rfl
  · intro s1 h hwin hdead
    rw [gameLoopTick, updatePhysics, if_neg (not_le.mpr hwin), if_pos hdead] at h
    split at h
    · split at h
      · injection h with h2; subst h2; rfl
      · exact absurd h (by simp)
    · injection h with h2; subst h2; rfl
  · intro s1 h hstatus hne
    rw [gameLoopTick, updatePhysics] at h
    split at h
    · injection h with h2; subst h2; rfl
    · split at h
      · split at h
        · split at h
          · injection h with h2; subst h2
            exact absurd hstatus hne
          · exact absurd h (by simp)
        · injection h with h2; subst h2; rfl
      · injection h with h2; subst h2
        exact absurd hstatus hne

/-- Witness for C2 (amended) on an ordinary mid-air tick. -/
theorem c2_elapsed_time_witness :
    (movedPlayer (min (16:ℚ) 50) noInput c2wState.level c2wState.player).x
      < c2wState.levelLength ∧
    ¬(movedPlayer (min (16:ℚ) 50) noInput c2wState.level c2wState.player).y > 800 ∧
    (gameLoopTick 16 noInput c2wState).map GameState.timeElapsed
      = some (c2wState.timeElapsed + (min (16:ℚ) 50) / 1000) :=
  ⟨by norm_num [movedPlayer, collideV, findLanding, c2wState, noInput,
      GRAVITY, MAX_FALL_SPEED, min_def],
   by norm_num [movedPlayer, collideV, findLanding, c2wState, noInput,
      GRAVITY, MAX_FALL_SPEED, min_def],
   (c2_elapsed_time 16 noInput c2wState).2.1
     (by norm_num [movedPlayer, collideV, findLanding, c2wState, noInput,
        GRAVITY, MAX_FALL_SPEED, min_def])
     (by norm_num [movedPlayer, collideV, findLanding, c2wState, noInput,
        GRAVITY, MAX_FALL_SPEED, min_def])⟩

/-- C3 (counterexample to the claim as stated): two horizontally
overlapping platforms, the later-listed one (`platB`) with the higher top;
a descent at speed 15 (at most either thickness, 30) snaps to the
first-listed platform (`platA`, top 400) and leaves the actor's feet at
400, strictly below the top of `platB` (390), whose top the feet started
above (385 ≤ 390) and whose span overlaps the actor. -/
theorem c3_claim_counterexample :
    (0:ℚ) ≤ 15 ∧ (337:ℚ) + 15 = 352 ∧
    (∀ plat ∈ [platA, platB], (15:ℚ) ≤ plat.height) ∧
    platB ∈ [platA, platB] ∧
    (10:ℚ) + 30 > platB.x ∧ (10:ℚ) < platB.x + platB.width ∧
    (337:ℚ) + 48 ≤ platB.y ∧
    (collideV [platA, platB] 10 337 352 15).1 + 48 > platB.y := by
  refine ⟨by norm_num, by norm_num, ?_, by simp, ?_, ?_, ?_, ?_⟩
  · intro plat hplat
    simp only [List.mem_cons, List.not_mem_nil, or_false] at hplat
    rcases hplat with rfl | rfl <;> norm_num [platA, platB]
  · norm_num [platB]
  · norm_num [platB]
  · norm_num [platB]
  · norm_num [collideV, findLanding, platA, platB]

/-- C3 (amended): under a single-tick descent with speed at most every
platform thickness, if the resolution matches a platform the actor's feet
are left exactly at that platform's top (never below it), and if no
platform matches the actor's feet are left at or above the top of every
overlapping platform they started above; being left below an overlapping
started-above platform is possible only when the resolution snapped to a
different, earlier-listed platform. -/
theorem c3_collision_soundness (level : List Platform) (nextX y nextY0 vy : ℚ)
    (hdesc : 0 ≤ vy) (_hstep : nextY0 = y + vy)
    (_hthick : ∀ plat ∈ level, vy ≤ plat.height) :
    (∀ plat, findLanding nextX y nextY0 level = some plat →
       (collideV level nextX y nextY0 vy).1 + 48 = plat.y) ∧
    (findLanding nextX y nextY0 level = none →
       ∀ plat ∈ level, nextX + 30 > plat.x → nextX < plat.x + plat.width →
         y + 48 ≤ plat.y → (collideV level nextX y nextY0 vy).1 + 48 ≤ plat.y) := by
  constructor
  · intro plat hf
    rw [collideV, if_pos hdesc, hf]
    ring
  · intro hn plat hm h1 h2 h3
    rw [collideV, if_pos hdesc, hn]
    have hfail := (findLanding_eq_none_iff nextX y nextY0 level).mp hn plat hm
    have hd : ¬(nextY0 + 48 ≥ plat.y) := fun hge => hfail ⟨h1, h2, h3, hge⟩
    exact le_of_lt (not_le.mp hd)

/-- Witness for C3 (amended) on a lone platform met mid-descent. -/
theorem c3_collision_soundness_witness :
    (0:ℚ) ≤ 12 ∧ (352:ℚ) = 340 + 12 ∧ (∀ plat ∈ [platW], (12:ℚ) ≤ plat.height) ∧
    findLanding 10 340 352 [platW] = some platW ∧
    (collideV [platW] 10 340 352 12).1 + 48 = platW.y :=
  ⟨by norm_num, by norm_num,
   by intro plat hplat
      simp only [List.mem_cons, List.not_mem_nil, or_false] at hplat
      subst hplat
      norm_num [platW],
   by norm_num [findLanding, platW],
   (c3_collision_soundness [platW] 10 340 352 12 (by norm_num) (by norm_num)
       (by intro plat hplat
           simp only [List.mem_cons, List.not_mem_nil, or_false] at hplat
           subst hplat
           norm_num [platW])).1 platW
     (by norm_num [findLanding, platW])⟩
